import Mathlib

/-!
Shallow embedding of the Tenshis sales bot (JavaScript) for checking its
natural-language specification.  The repository contains several near-duplicate
bot variants:
* `src/bot.js`, first class `TenshisSalesBot` (hybrid blockchain + API variant):
  `parseAPIResponse`, `processAPISales`, `formatPrice`, `generateSaleId`,
  `checkBlockchainSales`;
* `src/bot.js`, second class `TenshisSalesBot` (API-polling variant):
  `processSalesData` with the same per-sale loop structure;
* `src/bot.js`, third class `TenshisBlockchainBot` (blockchain-polling variant):
  `checkBlockchainTransfers`, `processTransferEvents`, `analyzePotentialSale`,
  `generateTransferId`;
* `src/unnamed/part_000`, class `EfficientTenshisBot` (WebSocket variant):
  `scheduleReconnect`, `fallbackToPolling`, `handleCollectionEvent`,
  `generateSaleId`.

JavaScript dynamic values that flow through the API-parsing code are modelled
by the inductive type `JSVal` (null / undefined / string / number / boolean)
together with JS truthiness, `||` and string interpolation.  Addresses and
token ids decoded from chain logs are modelled as natural numbers (the byte
content of the 32-byte ABI words); the zero address is the number 0.  Remote
effects (transaction lookups, Discord delivery) are passed in as explicit
oracle functions, so that every definition is executable.
-/

namespace TenshisBot

/-- Model of a JavaScript runtime value as it appears in the API-parsing code:
`null`, `undefined`, a string, an (integer) number, or a boolean. -/
inductive JSVal where
  | vNull
  | vUndef
  | vStr (s : String)
  | vNum (n : Int)
  | vBool (b : Bool)
deriving DecidableEq

/-- JavaScript truthiness: `null`, `undefined`, the empty string, `0` and
`false` are falsy, everything else is truthy. -/
def truthy : JSVal → Bool
  | .vNull => false
  | .vUndef => false
  | .vStr s => decide (s ≠ "")
  | .vNum n => decide (n ≠ 0)
  | .vBool b => b

/-- JavaScript `a || b`: returns `a` when `a` is truthy, otherwise `b`. -/
def jsOr (a b : JSVal) : JSVal :=
  if truthy a then a else b

/-- JavaScript string coercion as performed by template interpolation. -/
def jsToString : JSVal → String
  | .vNull => "null"
  | .vUndef => "undefined"
  | .vStr s => s
  | .vNum n => toString n
  | .vBool b => if b then "true" else "false"

/-- Whether the character list `p` is a prefix of `l`. -/
def isPrefixL : List Char → List Char → Bool
  | [], _ => true
  | _ :: _, [] => false
  | a :: as, b :: bs => a == b && isPrefixL as bs

/-- Whether the character list `p` occurs contiguously inside `l`. -/
def isInfixL (p : List Char) : List Char → Bool
  | [] => isPrefixL p []
  | c :: t => isPrefixL p (c :: t) || isInfixL p t

/-- JavaScript `s.includes(pat)`: substring containment. -/
def strIncludes (s pat : String) : Bool :=
  isInfixL pat.data s.data

/-- `formatPrice` from `src/bot.js` (hybrid variant, lines 492-500): falsy
input gives the string `Unknown`; a string already containing `HYPE` is kept,
any other string gets ` HYPE` appended; every non-string value is interpolated
into a template and gets ` HYPE` appended. -/
def formatPrice (price : JSVal) : String :=
  if truthy price = false then "Unknown"
  else
    match price with
    | .vStr s => if strIncludes s "HYPE" then s else s ++ " HYPE"
    | p => jsToString p ++ " HYPE"

/-- A normalized sale record as built by `parseAPIResponse` /
`processSalesData`; fields are raw JS values. -/
structure SaleRec where
  tokenId : JSVal
  price : JSVal
  seller : JSVal
  buyer : JSVal
  timestamp : JSVal
  txHash : JSVal
deriving DecidableEq

/-- `generateSaleId` from `src/bot.js` lines 502-504 and from
`src/unnamed/part_000` lines 563-565 (identical code): the template
string `tokenId-price-(timestamp || Date.now())`.  The wall clock is passed
explicitly as `now`, the value `Date.now()` would return at the moment the
key is generated. -/
def generateSaleId (sale : SaleRec) (now : Int) : String :=
  jsToString sale.tokenId ++ "-" ++ jsToString sale.price ++ "-" ++
    jsToString (jsOr sale.timestamp (.vNum now))

/-- One raw element of a marketplace API response, with all the aliased field
names the tolerant mapping in `parseAPIResponse` looks at.  The JS fields
`from` and `to` are called `fromF` and `toF` because `from` is reserved in
Lean. -/
structure APIItem where
  token_id : JSVal
  tokenId : JSVal
  id : JSVal
  price : JSVal
  sale_price : JSVal
  amount : JSVal
  seller : JSVal
  from_address : JSVal
  fromF : JSVal
  buyer : JSVal
  to_address : JSVal
  toF : JSVal
  timestamp : JSVal
  created_at : JSVal
  transaction_hash : JSVal
  txHash : JSVal
deriving DecidableEq

/-- The field mapping applied to each API item by `parseAPIResponse`
(`src/bot.js` lines 424-431); `now` is the `Date.now()` fallback used for a
missing timestamp. -/
def mapAPIItem (now : Int) (item : APIItem) : SaleRec :=
  { tokenId := jsOr (jsOr item.token_id item.tokenId) item.id
    price := .vStr (formatPrice (jsOr (jsOr item.price item.sale_price) item.amount))
    seller := jsOr (jsOr item.seller item.from_address) item.fromF
    buyer := jsOr (jsOr item.buyer item.to_address) item.toF
    timestamp := jsOr (jsOr item.timestamp item.created_at) (.vNum now)
    txHash := jsOr item.transaction_hash item.txHash }

/-- `parseAPIResponse` from `src/bot.js` lines 423-433: map every item through
the tolerant field mapping, then keep the records whose `tokenId` and `price`
are both truthy. -/
def parseAPIResponse (now : Int) (data : List APIItem) : List SaleRec :=
  (data.map (mapAPIItem now)).filter fun sale => truthy sale.tokenId && truthy sale.price

/-- `Set.add` on the seen set, modelled as an insertion-ordered duplicate-free
list: appends the key if it is not already present. -/
def addSeen (seen : List String) (k : String) : List String :=
  if seen.contains k then seen else seen ++ [k]

/-- The memory-management block at the end of `processAPISales`
(`src/bot.js` lines 486-489) and of `processTransferEvents` (lines 1461-1466):
when the seen set's size exceeds `cap`, it is replaced by
`new Set(Array.from(set).slice(0, keep))` — the first `keep` elements in
insertion order. -/
def trimSeen (cap keep : Nat) (seen : List α) : List α :=
  if cap < seen.length then seen.take keep else seen

/-- The body of the per-sale loop of `processAPISales` (`src/bot.js` lines
463-478; `processSalesData` at lines 940-960 has the same structure): skip a
sale whose id is already seen; otherwise post it to Discord and, only if
posting did not throw, add the id to the seen set (the `catch` block skips the
`add`).  Delivery is modelled by the oracle `notifyOk`. -/
def processAPISale (notifyOk : SaleRec → Bool) (now : Int)
    (seen : List String) (sale : SaleRec) : List String :=
  let saleId := generateSaleId sale now
  if seen.contains saleId then seen
  else if notifyOk sale then addSeen seen saleId
  else seen

/-- The collection contract address from `CONFIG.TENSHIS_CONTRACT_ADDRESS`. -/
def TENSHIS_CONTRACT_ADDRESS : String := "0x2420DB6CF531F932ee77F4A0912A60C31251c793"

/-- The keccak hash of `Transfer(address,address,uint256)`, the topic the
blockchain variant filters logs by (`ethers.id(...)`). -/
def TRANSFER_SIG : String :=
  "0xddf252ad1be2c89b69c2b068fc378daa952ba7f163c4a11628f55a4df523b3ef"

/-- One raw chain log as delivered by `getLogs`: its topic list, the bytes of
its `data` field, and the position fields the bot reads. -/
structure RawLog where
  topics : List String
  data : List Nat
  blockNumber : Nat
  txHash : String
  logIndex : Nat
deriving DecidableEq

/-- Big-endian byte-list to natural number. -/
def beBytesToNat (bs : List Nat) : Nat :=
  bs.foldl (fun acc b => acc * 256 + b) 0

/-- The `i`-th 32-byte ABI word of a data buffer. -/
def abiWord (data : List Nat) (i : Nat) : List Nat :=
  (data.drop (32 * i)).take 32

/-- `ethers.AbiCoder.defaultAbiCoder().decode(['address','address','uint256'], data)`:
needs at least three 32-byte words, otherwise it throws (modelled as `none`).
An address is the lower 20 bytes of its word. -/
def abiDecode3 (data : List Nat) : Option (Nat × Nat × Nat) :=
  if 96 ≤ data.length then
    some (beBytesToNat ((abiWord data 0).drop 12),
          beBytesToNat ((abiWord data 1).drop 12),
          beBytesToNat (abiWord data 2))
  else none

/-- A decoded ownership transfer, as assembled into `transferData` by
`processTransferEvents` (`src/bot.js` lines 1421-1428).  Addresses and the
token id are modelled numerically; the zero address is `0`. -/
structure TransferRec where
  tokenId : Nat
  fromAddr : Nat
  toAddr : Nat
  blockNumber : Nat
  txHash : String
  logIndex : Nat
deriving DecidableEq

/-- The decoding step of `processTransferEvents` (`src/bot.js` lines
1404-1412): the bot always ABI-decodes `(address, address, uint256)` from the
log's `data` field — it never reads the topics.  A failed decode throws inside
the per-log `try`, so the log is skipped (`none`). -/
def decodeTransferLog (log : RawLog) : Option TransferRec :=
  match abiDecode3 log.data with
  | none => none
  | some (f, t, id) =>
    some { tokenId := id, fromAddr := f, toAddr := t,
           blockNumber := log.blockNumber, txHash := log.txHash,
           logIndex := log.logIndex }

/-- `generateTransferId` from `src/bot.js` lines 1531-1533:
the template string `txHash-logIndex`. -/
def generateTransferId (t : TransferRec) : String :=
  t.txHash ++ "-" ++ Nat.repr t.logIndex

/-- Drop the trailing `0` characters of a digit list. -/
def stripRightZeros (l : List Char) : List Char :=
  (l.reverse.dropWhile (fun c => c == '0')).reverse

/-- Left-pad a string with `0` up to length `n`. -/
def padLeftZeros (s : String) (n : Nat) : String :=
  String.mk (List.replicate (n - s.length) '0') ++ s

/-- `ethers.formatEther`: a wei amount rendered as a decimal ether string with
trailing zeros of the fraction removed but at least one fractional digit kept
(`1.0`, `1.5`). -/
def formatEther (wei : Nat) : String :=
  let ip := wei / 10 ^ 18
  let frac := stripRightZeros (padLeftZeros (Nat.repr (wei % 10 ^ 18)) 18).data
  Nat.repr ip ++ "." ++ (if frac.isEmpty then "0" else String.mk frac)

/-- The transaction context `analyzePotentialSale` fetches for one transfer:
`tx.value` (wei), `tx.to` (`none` models JS `null`), the result of
`getCode(tx.to)`, `receipt.logs.length` and `receipt.gasUsed`. -/
structure TxContext where
  value : Nat
  toAddr : Option String
  code : String
  numLogs : Nat
  gasUsed : Nat
deriving DecidableEq

/-- The `analysis` record returned by `analyzePotentialSale`. -/
structure SaleAnalysis where
  isSale : Bool
  price : Option String
  marketplace : Option String
  confidence : Nat
deriving DecidableEq

/-- Factor 2 condition of `analyzePotentialSale` (`src/bot.js` lines
1493-1500): `tx.to` is non-null, differs from the collection contract, and
`getCode(tx.to)` is not the empty code `0x`. -/
def isMarketplaceDest (ctx : TxContext) : Bool :=
  match ctx.toAddr with
  | some a => decide (a ≠ TENSHIS_CONTRACT_ADDRESS) && decide (ctx.code ≠ "0x")
  | none => false

/-- `analyzePotentialSale` from `src/bot.js` lines 1469-1529 (blockchain
variant), success path.  Confidence is accumulated in source order:
+30 when the transaction carries value (and the price is recorded as
`formatEther(value) HYPE`), +40 when the destination is a contract other than
the collection, +20 when the receipt has more than one log, +10 when gas used
exceeds 100000; `isSale` holds when the total reaches 50. -/
def analyzePotentialSale (ctx : TxContext) : SaleAnalysis :=
  let c1 := if 0 < ctx.value then 30 else 0
  let c2 := c1 + (if isMarketplaceDest ctx then 40 else 0)
  let c3 := c2 + (if 1 < ctx.numLogs then 20 else 0)
  let c4 := c3 + (if 100000 < ctx.gasUsed then 10 else 0)
  { isSale := decide (50 ≤ c4)
    price := if 0 < ctx.value then some (formatEther ctx.value ++ " HYPE") else none
    marketplace := if isMarketplaceDest ctx then ctx.toAddr else none
    confidence := c4 }

/-- The confidence score as the claim states it (refinement comparison only):
+40 for nonzero value, +30 for a foreign contract destination, +15 for more
than two emitted events, +15 for gas above the fixed threshold. -/
def claimConfidence (ctx : TxContext) : Nat :=
  (if 0 < ctx.value then 40 else 0) + (if isMarketplaceDest ctx then 30 else 0) +
    (if 2 < ctx.numLogs then 15 else 0) + (if 100000 < ctx.gasUsed then 15 else 0)

/-- The body of the per-log loop of `processTransferEvents` (`src/bot.js`
lines 1404-1454): decode from `data` (a throw skips the log); skip mints
(`from` is the zero address) before anything else; skip transfers whose id is
already seen; otherwise classify via `analyzePotentialSale` on the
transaction context (oracle `getCtx`), post to Discord when it is a sale, and
add the id to the seen set — a notification throw jumps to the per-log
`catch`, skipping the `add`.  Returns the new seen set and the list of
successfully posted `(transfer, analysis)` pairs. -/
def processTransferEvent (getCtx : TransferRec → TxContext)
    (notifyOk : TransferRec → Bool) (seen : List String) (log : RawLog) :
    List String × List (TransferRec × SaleAnalysis) :=
  match decodeTransferLog log with
  | none => (seen, [])
  | some tr =>
    if tr.fromAddr = 0 then (seen, [])
    else
      let tid := generateTransferId tr
      if seen.contains tid then (seen, [])
      else
        let info := analyzePotentialSale (getCtx tr)
        if info.isSale then
          if notifyOk tr then (addSeen seen tid, [(tr, info)])
          else (seen, [])
        else (addSeen seen tid, [])

/-- The loop of `processTransferEvents` over a whole log batch, threading the
seen set and collecting the posted sales. -/
def processTransferEvents (getCtx : TransferRec → TxContext)
    (notifyOk : TransferRec → Bool) (seen : List String) :
    List RawLog → List String × List (TransferRec × SaleAnalysis)
  | [] => (seen, [])
  | log :: rest =>
    let out := processTransferEvent getCtx notifyOk seen log
    let outs := processTransferEvents getCtx notifyOk out.1 rest
    (outs.1, out.2 ++ outs.2)

/-- `CONFIG.BLOCK_RANGE` of the blockchain variant. -/
def BLOCK_RANGE : Nat := 1000

/-- One cycle of `checkBlockchainSales` (`src/bot.js` lines 280-301) acting on
the cursor: `current` is the fetched block height and `ok` tells whether the
remote calls of the cycle succeeded (a throw is caught and leaves the cursor
untouched).  Returns the new cursor and the block range that was scanned, if
any: `[last+1, current]`. -/
def checkBlockchainSalesStep (last current : Nat) (ok : Bool) : Nat × Option (Nat × Nat) :=
  if ok = false then (last, none)
  else if current ≤ last then (last, none)
  else (current, some (last + 1, current))

/-- One cycle of `checkBlockchainTransfers` (`src/bot.js` lines 1345-1397):
like `checkBlockchainSalesStep` but the scanned range is bounded by the
lookback window, `[max(last+1, current - BLOCK_RANGE), current]`. -/
def checkBlockchainTransfersStep (last current : Nat) (ok : Bool) : Nat × Option (Nat × Nat) :=
  if ok = false then (last, none)
  else if current ≤ last then (last, none)
  else (current, some (max (last + 1) (current - BLOCK_RANGE), current))

/-- A sequence of `checkBlockchainTransfers` cycles, each described by its
fetched height and success flag, folded over the cursor. -/
def runTransferCycles (last : Nat) : List (Nat × Bool) → Nat
  | [] => last
  | (c, ok) :: rest => runTransferCycles (checkBlockchainTransfersStep last c ok).1 rest

/-- A WebSocket collection event as read by `handleCollectionEvent`
(`src/unnamed/part_000`): the emitting contract, the event name and the
`from` address (an address string here, as in the feed payload). -/
structure WsEvent where
  contract : String
  event : String
  fromAddr : String
deriving DecidableEq

/-- The zero address string the WebSocket variant compares against. -/
def ZERO_ADDRESS : String := "0x0000000000000000000000000000000000000000"

/-- `handleCollectionEvent` from `src/unnamed/part_000` lines 260-280:
ignore events of other contracts; for a `Transfer` whose `from` is not the
zero address, analyze it (oracle `analyze` tells whether the analysis
classifies it as a sale and `processSale` runs).  Returns whether a sale was
processed. -/
def handleCollectionEvent (analyze : WsEvent → Bool) (ev : WsEvent) : Bool :=
  if ev.contract ≠ TENSHIS_CONTRACT_ADDRESS then false
  else if ev.event = "Transfer" ∧ ev.fromAddr ≠ ZERO_ADDRESS then analyze ev
  else false

/-- `CONFIG.RECONNECT_DELAY` of the WebSocket variant. -/
def RECONNECT_DELAY : Nat := 5000

/-- `CONFIG.MAX_RECONNECT_ATTEMPTS` of the WebSocket variant. -/
def MAX_RECONNECT_ATTEMPTS : Nat := 10

/-- What one call of `scheduleReconnect` does: either schedule a reconnection
after a delay, or fall back to the polling path. -/
inductive ReconnectAction where
  | retryIn (delay : Nat)
  | fallbackToPolling
deriving DecidableEq

/-- `scheduleReconnect` from `src/unnamed/part_000` lines 414-429: once the
attempt counter has reached `MAX_RECONNECT_ATTEMPTS` it calls
`fallbackToPolling` and returns; otherwise it increments the counter and
schedules `connectWebSocket` after `RECONNECT_DELAY * 2 ^ (attempts - 1)`
milliseconds.  Returns the new counter and the action taken. -/
def scheduleReconnect (attempts : Nat) : Nat × ReconnectAction :=
  if MAX_RECONNECT_ATTEMPTS ≤ attempts then (attempts, .fallbackToPolling)
  else (attempts + 1, .retryIn (RECONNECT_DELAY * 2 ^ (attempts + 1 - 1)))

/-- `n` consecutive disconnects starting from attempt counter `a`: the final
counter and the list of actions taken. -/
def runReconnects (a : Nat) : Nat → Nat × List ReconnectAction
  | 0 => (a, [])
  | n + 1 =>
    let step := scheduleReconnect a
    let rest := runReconnects step.1 n
    (rest.1, step.2 :: rest.2)

/-- A 96-byte data payload decoding to `from = 0xaa`, `to = 0xbb`,
`tokenId = 5`, used as a concrete non-mint transfer input. -/
def sampleTransferData : List Nat :=
  (List.replicate 31 0 ++ [170]) ++ (List.replicate 31 0 ++ [187]) ++
    (List.replicate 31 0 ++ [5])

/-- A concrete raw log carrying `sampleTransferData`. -/
def sampleLog : RawLog :=
  { topics := [TRANSFER_SIG], data := sampleTransferData,
    blockNumber := 7, txHash := "0xabc", logIndex := 2 }

/-! ### Helper lemmas -/

theorem append_ne_empty_right (s t : String) (ht : t ≠ "") : s ++ t ≠ "" := by
  intro h
  apply ht
  have hd : s.data ++ t.data = ([] : List Char) := by
    have := congrArg String.data h
    simpa using this
  have : t.data = [] := (List.append_eq_nil.mp hd).2
  cases t
  simpa [String.ext_iff] using this

theorem formatPrice_ne_empty (v : JSVal) : formatPrice v ≠ "" := by
  cases v with
  | vNull => decide
  | vUndef => decide
  | vStr s =>
    by_cases hs : s = ""
    · subst hs; decide
    · have htr : truthy (JSVal.vStr s) = true := by simp [truthy, hs]
      unfold formatPrice
      rw [htr]
      simp only [Bool.true_eq_false, if_false]
      split
      · exact hs
      · exact append_ne_empty_right _ _ (by decide)
  | vNum n =>
    unfold formatPrice
    split
    · decide
    · exact append_ne_empty_right _ _ (by decide)
  | vBool b =>
    unfold formatPrice
    split
    · decide
    · exact append_ne_empty_right _ _ (by decide)

theorem transfersStep_le (last current : Nat) (ok : Bool) :
    last ≤ (checkBlockchainTransfersStep last current ok).1 := by
  unfold checkBlockchainTransfersStep
  split
  · exact Nat.le_refl _
  · split
    · exact Nat.le_refl _
    · rename_i h _
      simp only
      omega

theorem processTransferEvent_no_mint (getCtx : TransferRec → TxContext)
    (notifyOk : TransferRec → Bool) (seen : List String) (log : RawLog) :
    ((processTransferEvent getCtx notifyOk seen log).2.all fun p => p.1.fromAddr != 0) = true := by
  unfold processTransferEvent
  cases hdec : decodeTransferLog log with
  | none => rfl
  | some tr =>
    by_cases h0 : tr.fromAddr = 0
    · simp [h0]
    · simp only [h0, if_false, ite_false]
      split
      · rfl
      · split
        · split
          · simp [List.all, bne_iff_ne, h0]
          · rfl
        · rfl

/-! ### Claim C1 -/

/-- Claim C1, counterexample: on a transaction with 1 wei of value, no
destination contract, one log and no gas, the code scores confidence 30 while
the claimed weight table gives 40. -/
theorem analyzePotentialSale_claim_false :
    (analyzePotentialSale ⟨1, none, "0x", 1, 0⟩).confidence ≠
      claimConfidence ⟨1, none, "0x", 1, 0⟩ := by decide

/-- Claim C1, amended: the confidence score is the sum of +30 for nonzero
value (with the price recorded as the formatted amount in HYPE), +40 for a
contract destination other than the collection, +20 for more than one emitted
event, and +10 for gas above 100000; `isSale` holds at total 50 or more; the
scenario transaction (value 1.5 native units, foreign contract destination,
3 events, gas 120000) scores 30+40+20+10 = 100 with `isSale = true` and price
`1.5 HYPE`. -/
theorem analyzePotentialSale_weights :
    (∀ ctx : TxContext,
        (analyzePotentialSale ctx).confidence =
          (if 0 < ctx.value then 30 else 0) + (if isMarketplaceDest ctx then 40 else 0) +
            (if 1 < ctx.numLogs then 20 else 0) + (if 100000 < ctx.gasUsed then 10 else 0)
        ∧ (analyzePotentialSale ctx).isSale =
            decide (50 ≤ (analyzePotentialSale ctx).confidence))
    ∧ analyzePotentialSale ⟨1500000000000000000, some "0xmkt", "0x6080", 3, 120000⟩ =
        { isSale := true, price := some "1.5 HYPE", marketplace := some "0xmkt",
          confidence := 100 } :=
  ⟨fun _ => ⟨rfl, rfl⟩, by decide⟩

/-! ### Claim C2 -/

/-- Claim C2, counterexample: a sale record with no timestamp field evaluated
at two different wall-clock instants produces two different dedup keys. -/
theorem generateSaleId_wall_clock_dependent :
    generateSaleId ⟨.vNum 1, .vStr "2 HYPE", .vUndef, .vUndef, .vUndef, .vUndef⟩ 1 ≠
      generateSaleId ⟨.vNum 1, .vStr "2 HYPE", .vUndef, .vUndef, .vUndef, .vUndef⟩ 2 := by
  decide

/-- Claim C2, amended: the dedup key is a deterministic function of the stable
fields tokenId, price and timestamp only when the record carries a truthy
timestamp; records without one fall back to the current wall clock. -/
theorem generateSaleId_deterministic_with_timestamp :
    ∀ (s₁ s₂ : SaleRec) (now₁ now₂ : Int),
      truthy s₁.timestamp = true → s₁.tokenId = s₂.tokenId → s₁.price = s₂.price →
      s₁.timestamp = s₂.timestamp →
      generateSaleId s₁ now₁ = generateSaleId s₂ now₂ := by
  intro s₁ s₂ now₁ now₂ ht h1 h2 h3
  unfold generateSaleId jsOr
  rw [← h1, ← h2, ← h3, ht]
  simp

/-- Claim C2, witness for the amended theorem at a record with timestamp 5. -/
theorem generateSaleId_deterministic_with_timestamp_witness :
    generateSaleId ⟨.vNum 1, .vStr "2 HYPE", .vUndef, .vUndef, .vNum 5, .vUndef⟩ 1 =
      generateSaleId ⟨.vNum 1, .vStr "2 HYPE", .vUndef, .vUndef, .vNum 5, .vUndef⟩ 2 :=
  generateSaleId_deterministic_with_timestamp _ _ 1 2 (by decide) rfl rfl rfl

/-! ### Claim C3 -/

/-- Claim C3: evaluating the seen-set trim on 1001 distinct keys inserted in
order 0..1000 at capacity 1000 shows the code keeps the oldest-inserted 500
keys and drops the most recently inserted ones (key 1000 disappears, key 0
survives), contrary to the claimed oldest-first eviction. -/
theorem trimSeen_keeps_oldest :
    trimSeen 1000 500 (List.range 1001) = List.range 500
    ∧ (List.range 1001).contains 1000 = true
    ∧ (List.range 500).contains 1000 = false
    ∧ (List.range 500).contains 0 = true := by
  refine ⟨?_, ?_, ?_, ?_⟩
  · unfold trimSeen
    rw [List.length_range, if_pos (by omega), List.take_range]
    norm_num
  · simp [List.elem_iff, List.mem_range]
  · simp [List.elem_iff, List.mem_range]
  · simp [List.elem_iff, List.mem_range]

/-! ### Claim C4 -/

/-- Claim C4: the decoder never consults the topics (decoding is invariant
under any change of the topic list), and on the standard indexed-triple
Transfer log — four topics carrying from/to/tokenId, empty data — the ABI
decode of the data field fails, so the log is skipped instead of decoding to
the indexed values. -/
theorem decodeTransferLog_ignores_topics :
    decodeTransferLog
      { topics := [TRANSFER_SIG,
          "0x0000000000000000000000000000000000000000000000000000000000000aaa",
          "0x0000000000000000000000000000000000000000000000000000000000000bbb",
          "0x0000000000000000000000000000000000000000000000000000000000000005"],
        data := [], blockNumber := 7, txHash := "0xabc", logIndex := 0 } = none
    ∧ (∀ (t₁ t₂ : List String) (d : List Nat) (bn : Nat) (tx : String) (li : Nat),
        decodeTransferLog ⟨t₁, d, bn, tx, li⟩ = decodeTransferLog ⟨t₂, d, bn, tx, li⟩) :=
  ⟨rfl, fun _ _ _ _ _ _ => rfl⟩

/-! ### Claim C5 -/

/-- Claim C5, counterexample: a new sale whose Discord delivery fails is not
added to the seen set — the resulting seen set is empty and does not contain
the sale's dedup key, so the sale will be attempted again. -/
theorem notification_failure_not_marked_seen :
    processAPISale (fun _ => false) 0 []
        ⟨.vNum 1, .vStr "2 HYPE", .vUndef, .vUndef, .vNum 7, .vUndef⟩ = []
    ∧ (processAPISale (fun _ => false) 0 []
        ⟨.vNum 1, .vStr "2 HYPE", .vUndef, .vUndef, .vNum 7, .vUndef⟩).contains
          (generateSaleId ⟨.vNum 1, .vStr "2 HYPE", .vUndef, .vUndef, .vNum 7, .vUndef⟩ 0)
        = false := by decide

/-- Claim C5, amended: when delivery of a new sale fails the failure is logged
and the seen set is left unchanged, so the sale is re-attempted in later
cycles; the dedup key is added exactly when delivery succeeds. -/
theorem seen_update_on_notification :
    ∀ (notifyOk : SaleRec → Bool) (now : Int) (seen : List String) (sale : SaleRec),
      (notifyOk sale = false → processAPISale notifyOk now seen sale = seen)
      ∧ (notifyOk sale = true →
          processAPISale notifyOk now seen sale = addSeen seen (generateSaleId sale now)) := by
  intro notifyOk now seen sale
  constructor
  · intro h
    simp [processAPISale, h]
  · intro h
    by_cases hc : generateSaleId sale now ∈ seen <;>
      simp [processAPISale, addSeen, h, hc]

/-- Claim C5, witness for the amended theorem: a failing notifier leaves an
empty seen set empty. -/
theorem seen_update_on_notification_witness :
    processAPISale (fun _ => false) 0 []
        ⟨.vNum 2, .vStr "1 HYPE", .vUndef, .vUndef, .vNum 9, .vUndef⟩ = [] :=
  (seen_update_on_notification _ 0 [] _).1 rfl

/-! ### Claim C6 -/

/-- Claim C6, counterexample: one successful `checkBlockchainTransfers` cycle
starting from cursor 100 with current height 2000 advances the cursor to 2000
while only blocks 1000..2000 are scanned, so the cursor passes height 500
whose logs were never scanned. -/
theorem cursor_advances_past_unscanned :
    (checkBlockchainTransfersStep 100 2000 true).1 = 2000
    ∧ (checkBlockchainTransfersStep 100 2000 true).2 = some (1000, 2000)
    ∧ 100 < 500 ∧ 500 < 2000 ∧ ¬ (1000 ≤ 500) := by decide

/-- Claim C6, amended: `lastProcessedBlock` never decreases across cycles and
a failed cycle leaves it unchanged; whenever it advances the cycle succeeded
and the scanned range is `[last+1, current]` for `checkBlockchainSales` but
only `[max(last+1, current - 1000), current]` for `checkBlockchainTransfers`,
so the latter may pass heights older than the lookback window unscanned. -/
theorem cursor_monotone_and_failure_safe :
    (∀ (last current : Nat) (ok : Bool),
        last ≤ (checkBlockchainTransfersStep last current ok).1
        ∧ (ok = false → checkBlockchainTransfersStep last current ok = (last, none))
        ∧ ((checkBlockchainTransfersStep last current ok).1 ≠ last →
            ok = true ∧ checkBlockchainTransfersStep last current ok =
              (current, some (max (last + 1) (current - BLOCK_RANGE), current))))
    ∧ (∀ (last current : Nat) (ok : Bool),
        last ≤ (checkBlockchainSalesStep last current ok).1
        ∧ (ok = false → checkBlockchainSalesStep last current ok = (last, none))
        ∧ ((checkBlockchainSalesStep last current ok).1 ≠ last →
            checkBlockchainSalesStep last current ok = (current, some (last + 1, current))))
    ∧ (∀ (cycles : List (Nat × Bool)) (last : Nat), last ≤ runTransferCycles last cycles) := by
  refine ⟨fun last current ok => ⟨transfersStep_le last current ok, ?_, ?_⟩,
    fun last current ok => ⟨?_, ?_, ?_⟩, ?_⟩
  · intro h
    unfold checkBlockchainTransfersStep
    simp [h]
  · intro h
    by_cases hok : ok = false
    · exact absurd (by simp [checkBlockchainTransfersStep, hok]) h
    · have hok' : ok = true := by
        cases ok
        · exact absurd rfl hok
        · rfl
      by_cases hc : current ≤ last
      · exact absurd (by simp [checkBlockchainTransfersStep, hok', hc]) h
      · exact ⟨hok', by simp [checkBlockchainTransfersStep, hok', hc]⟩
  · unfold checkBlockchainSalesStep
    split
    · exact Nat.le_refl _
    · split
      · exact Nat.le_refl _
      · rename_i h _
        simp only
        omega
  · intro h
    unfold checkBlockchainSalesStep
    simp [h]
  · intro h
    by_cases hok : ok = false
    · exact absurd (by simp [checkBlockchainSalesStep, hok]) h
    · have hok' : ok = true := by
        cases ok
        · exact absurd rfl hok
        · rfl
      by_cases hc : current ≤ last
      · exact absurd (by simp [checkBlockchainSalesStep, hok', hc]) h
      · simp [checkBlockchainSalesStep, hok', hc]
  · intro cycles
    induction cycles with
    | nil => exact fun last => Nat.le_refl _
    | cons c rest ih =>
      intro last
      obtain ⟨cb, cok⟩ := c
      exact Nat.le_trans (transfersStep_le last cb cok) (ih _)

/-- Claim C6, witness for the amended theorem: a failed cycle leaves the
cursor at 3, and a successful `checkBlockchainSales` cycle from 3 to height 10
scans exactly blocks 4..10. -/
theorem cursor_monotone_and_failure_safe_witness :
    checkBlockchainTransfersStep 3 10 false = (3, none)
    ∧ checkBlockchainSalesStep 3 10 true = (10, some (4, 10)) :=
  ⟨(cursor_monotone_and_failure_safe.1 3 10 false).2.1 rfl,
   (cursor_monotone_and_failure_safe.2.1 3 10 true).2.2 (by decide)⟩

/-! ### Claim C7 -/

/-- Claim C7, confirmed: in the blockchain-polling pipeline no transfer whose
`from` address is the zero address ever appears among the posted sales of a
batch, and in the WebSocket variant a `Transfer` whose `from` is the zero
address never triggers sale analysis or processing. -/
theorem mint_transfers_never_sales :
    (∀ (getCtx : TransferRec → TxContext) (notifyOk : TransferRec → Bool)
        (seen : List String) (logs : List RawLog),
        ((processTransferEvents getCtx notifyOk seen logs).2.all
          fun p => p.1.fromAddr != 0) = true)
    ∧ (∀ (analyze : WsEvent → Bool) (c e : String),
        handleCollectionEvent analyze ⟨c, e, ZERO_ADDRESS⟩ = false) := by
  constructor
  · intro getCtx notifyOk seen logs
    induction logs generalizing seen with
    | nil => rfl
    | cons log rest ih =>
      unfold processTransferEvents
      simp only [List.all_append, Bool.and_eq_true]
      exact ⟨processTransferEvent_no_mint getCtx notifyOk seen log, ih _⟩
  · intro analyze c e
    simp [handleCollectionEvent]

/-! ### Claim C8 -/

/-- Claim C8, confirmed: reconnect attempt `n` (1-based, counter `n-1` before
the call) is scheduled after `RECONNECT_DELAY * 2 ^ (n-1)` ms — the first
three delays are 5000, 10000, 20000 — and once the counter has reached
`MAX_RECONNECT_ATTEMPTS` every further disconnect falls back to polling,
leaves the counter unchanged, and schedules no reconnect attempt. -/
theorem reconnect_backoff :
    (runReconnects 0 3).2 = [.retryIn 5000, .retryIn 10000, .retryIn 20000]
    ∧ (∀ n, n < MAX_RECONNECT_ATTEMPTS →
        scheduleReconnect n = (n + 1, .retryIn (RECONNECT_DELAY * 2 ^ n)))
    ∧ (∀ a, MAX_RECONNECT_ATTEMPTS ≤ a → scheduleReconnect a = (a, .fallbackToPolling))
    ∧ (∀ a n, MAX_RECONNECT_ATTEMPTS ≤ a →
        (runReconnects a n).1 = a
        ∧ ((runReconnects a n).2.all
            fun act => decide (act = ReconnectAction.fallbackToPolling)) = true) := by
  refine ⟨by decide, ?_, ?_, ?_⟩
  · intro n hn
    unfold scheduleReconnect
    rw [if_neg (by omega)]
    simp
  · intro a ha
    unfold scheduleReconnect
    rw [if_pos ha]
  · intro a n ha
    have hs : scheduleReconnect a = (a, .fallbackToPolling) := by
      unfold scheduleReconnect
      rw [if_pos ha]
    induction n with
    | zero => exact ⟨rfl, rfl⟩
    | succ k ih =>
      unfold runReconnects
      rw [hs]
      exact ⟨ih.1, by simp [ih.1, ih.2, List.all]⟩

/-- Claim C8, witness: at the attempt cap the controller falls back to polling
and five further disconnects leave the counter at the cap. -/
theorem reconnect_backoff_witness :
    scheduleReconnect 10 = (10, .fallbackToPolling)
    ∧ (runReconnects 10 5).1 = 10 :=
  ⟨reconnect_backoff.2.2.1 10 (by decide),
   (reconnect_backoff.2.2.2 10 5 (by decide)).1⟩

/-! ### Claim C9 -/

/-- Claim C9, counterexample: a decoded non-mint transfer that is classified
as a sale but whose notification fails does not get its id added to the seen
set — processing returns the empty seen set unchanged. -/
theorem transferId_dropped_on_notify_failure :
    decodeTransferLog sampleLog = some ⟨5, 170, 187, 7, "0xabc", 2⟩
    ∧ (analyzePotentialSale ⟨1, some "0xm", "0x6080", 3, 200000⟩).isSale = true
    ∧ processTransferEvent (fun _ => ⟨1, some "0xm", "0x6080", 3, 200000⟩)
        (fun _ => false) [] sampleLog = ([], []) := by decide

/-- Claim C9, amended: a decoded non-mint transfer whose id is already seen is
not re-analyzed and produces nothing; a new one has its id added whether or
not it is classified as a sale, except when it is classified as a sale and the
notification fails, in which case the id is not added. -/
theorem transferId_lifecycle :
    ∀ (getCtx : TransferRec → TxContext) (notifyOk : TransferRec → Bool)
      (seen : List String) (log : RawLog) (tr : TransferRec),
      decodeTransferLog log = some tr → tr.fromAddr ≠ 0 →
      (seen.contains (generateTransferId tr) = true →
          processTransferEvent getCtx notifyOk seen log = (seen, []))
      ∧ (seen.contains (generateTransferId tr) = false →
          ((analyzePotentialSale (getCtx tr)).isSale = false ∨ notifyOk tr = true) →
          (processTransferEvent getCtx notifyOk seen log).1 =
            addSeen seen (generateTransferId tr))
      ∧ (seen.contains (generateTransferId tr) = false →
          (analyzePotentialSale (getCtx tr)).isSale = true → notifyOk tr = false →
          processTransferEvent getCtx notifyOk seen log = (seen, [])) := by
  intro getCtx notifyOk seen log tr hdec h0
  unfold processTransferEvent
  rw [hdec]
  simp only [h0, if_false, ite_false]
  refine ⟨fun hc => ?_, fun hc hok => ?_, fun hc hs hn => ?_⟩
  · have hc' : generateTransferId tr ∈ seen := by simpa using hc
    simp [hc']
  · have hc' : generateTransferId tr ∉ seen := by simpa using hc
    by_cases hs : (analyzePotentialSale (getCtx tr)).isSale = true
    · have hn : notifyOk tr = true := by
        cases hok with
        | inl h => exact absurd hs (by simp [h])
        | inr h => exact h
      simp [hc', hs, hn, addSeen]
    · simp only [Bool.not_eq_true] at hs
      simp [hc', hs, addSeen]
  · have hc' : generateTransferId tr ∉ seen := by simpa using hc
    simp [hc', hs, hn]

/-- Claim C9, witness for the amended theorem: a new transfer classified as
not-a-sale gets its id added to the seen set. -/
theorem transferId_lifecycle_witness :
    (processTransferEvent (fun _ => ⟨0, none, "0x", 1, 0⟩) (fun _ => true) [] sampleLog).1 =
      addSeen [] (generateTransferId ⟨5, 170, 187, 7, "0xabc", 2⟩) :=
  (transferId_lifecycle _ _ [] sampleLog _ (by decide) (by decide)).2.1 (by decide)
    (Or.inl (by decide))

/-! ### Claim C10 -/

/-- Claim C10, confirmed: `formatPrice` is total and never returns an empty
string, returning `Unknown` on every falsy input; consequently the filter of
`parseAPIResponse` never rejects a record on the price side — it filters on
the token id alone. -/
theorem formatPrice_total_and_filter :
    (∀ v : JSVal, formatPrice v ≠ "" ∧ (truthy v = false → formatPrice v = "Unknown"))
    ∧ (∀ (now : Int) (data : List APIItem),
        parseAPIResponse now data =
          (data.map (mapAPIItem now)).filter fun sale => truthy sale.tokenId) := by
  constructor
  · intro v
    exact ⟨formatPrice_ne_empty v, fun h => by simp [formatPrice, h]⟩
  · intro now data
    unfold parseAPIResponse
    apply List.filter_congr
    intro x hx
    obtain ⟨item, _, rfl⟩ := List.mem_map.mp hx
    have hp : truthy (mapAPIItem now item).price = true := by
      simp only [mapAPIItem, truthy, decide_eq_true_iff]
      exact formatPrice_ne_empty _
    rw [hp, Bool.and_true]

/-- Claim C10, witness: the null price formats to `Unknown`. -/
theorem formatPrice_total_and_filter_witness :
    formatPrice JSVal.vNull = "Unknown" :=
  (formatPrice_total_and_filter.1 JSVal.vNull).2 rfl

end TenshisBot
